import Mathlib

/-
Verification of the pytorch-wrapper example notebooks.

The repository consists of two notebooks:
  * `examples/1_two_spiral_task.ipynb` defining `TwoSpiralDataset` (fetch a
    remote tab-separated file, parse it into parallel arrays `pos`/`target`,
    expose dict-shaped `__getitem__` and `__len__`) and `Model` (an external
    MLP configured with input size 2 and output size 1, whose result is
    squeezed in `forward`);
  * an unnamed notebook defining `ManhattanDistanceEvaluator`
    (`reset`/`step`/`calculate` accumulating model outputs and batch targets
    and scoring their summed absolute difference).

Python strings are embedded as lists of characters, Python `float` values as
exact rationals, Python exceptions as an abstract error type `ε` (the
`float` conversion function is a parameter `pf`, since `float` parsing is
owned by the Python runtime, and the `ValueError` raised by tuple unpacking
is a parameter `ue`).  Fallible Python code (network fetch, parsing,
indexing, dict lookup) is embedded with `Except`/`Option`.
-/

set_option autoImplicit false

/-- A Python string, embedded as its list of characters. -/
abbrev PyStr := List Char

/-- Python `s.split(sep)` for a single-character separator: splits at every
occurrence of `sep`, keeping empty fragments, with `"".split(sep) = ['']`. -/
def pySplit (sep : Char) : PyStr → List PyStr
  | [] => [[]]
  | c :: rest =>
    match pySplit sep rest with
    | [] => if c = sep then [[], []] else [[c]]
    | g :: gs => if c = sep then [] :: g :: gs else (c :: g) :: gs

namespace TwoSpiral

/-- The lines the constructor iterates over: `raw_tsv_request.text.split('\n')[1:-1]`,
that is, every newline-separated fragment of the fetched text except the
first and the last. -/
def parsedLines (text : PyStr) : List PyStr :=
  ((pySplit '\x0a' text).drop 1).dropLast

/-- One iteration of the constructor's loop body on a line:
`pos_x, pos_y, cur_target = line.split('\t')` (raising a `ValueError`,
embedded as `ue` applied to the number of fields, unless there are exactly
three tab-separated fields), followed by `float(pos_x)`, `float(pos_y)`,
`float(cur_target)` (each of which may raise, embedded as `pf` returning
`Except.error`). -/
def parseRecord {ε α : Type} (pf : PyStr → Except ε α) (ue : Nat → ε)
    (line : PyStr) : Except ε (α × α × α) :=
  match pySplit '\x09' line with
  | [a, b, c] =>
    match pf a with
    | Except.error e => Except.error e
    | Except.ok x =>
      match pf b with
      | Except.error e => Except.error e
      | Except.ok y =>
        match pf c with
        | Except.error e => Except.error e
        | Except.ok t => Except.ok (x, y, t)
  | fs => Except.error (ue fs.length)

/-- The constructor's loop over the parsed lines, building the parallel
lists `pos` (coordinate pairs) and `target` (labels) in file order; the
first raised exception aborts the loop and propagates. -/
def buildRecords {ε α : Type} (pf : PyStr → Except ε α) (ue : Nat → ε) :
    List PyStr → Except ε (List (α × α) × List α)
  | [] => Except.ok ([], [])
  | line :: rest =>
    match parseRecord pf ue line with
    | Except.error e => Except.error e
    | Except.ok (x, y, t) =>
      match buildRecords pf ue rest with
      | Except.error e => Except.error e
      | Except.ok (ps, ts) => Except.ok ((x, y) :: ps, t :: ts)

/-- The state of a constructed `TwoSpiralDataset`: the parallel arrays
`self.pos` (one 2-D coordinate pair per record) and `self.target` (one
label per record). -/
structure TwoSpiralDataset (α : Type) where
  pos : List (α × α)
  target : List α
deriving DecidableEq

/-- `TwoSpiralDataset.__init__`: fetch the remote resource (embedded as the
`fetch : Except ε PyStr` argument, since the network call is owned by the
`requests` library; its failure propagates), split the text on newlines,
drop the first and last fragment, and parse each remaining line into a
coordinate pair appended to `pos` and a label appended to `target`. -/
def TwoSpiralDataset.init {ε α : Type} (pf : PyStr → Except ε α) (ue : Nat → ε)
    (fetch : Except ε PyStr) : Except ε (TwoSpiralDataset α) :=
  match fetch with
  | Except.error e => Except.error e
  | Except.ok text =>
    match buildRecords pf ue (parsedLines text) with
    | Except.error e => Except.error e
    | Except.ok (ps, ts) => Except.ok { pos := ps, target := ts }

/-- `TwoSpiralDataset.__len__`: `self.target.shape[0]`, the number of
stored labels. -/
def TwoSpiralDataset.len {α : Type} (d : TwoSpiralDataset α) : Nat :=
  d.target.length

/-- A value stored in the example dictionary returned by `__getitem__`:
either a 2-D coordinate pair (under key `"input"`) or a scalar label
(under key `"target"`). -/
inductive ItemValue (α : Type) where
  | coords : α × α → ItemValue α
  | label : α → ItemValue α
deriving DecidableEq

/-- `TwoSpiralDataset.__getitem__`: returns the dictionary
`{'input': self.pos[item_index], 'target': self.target[item_index]}`,
embedded as an association list; indexing out of range raises, embedded
as `none`. -/
def TwoSpiralDataset.getitem {α : Type} (d : TwoSpiralDataset α)
    (item_index : Nat) : Option (List (String × ItemValue α)) :=
  match d.pos[item_index]?, d.target[item_index]? with
  | some p, some t => some [("input", ItemValue.coords p), ("target", ItemValue.label t)]
  | _, _ => none

/-- A line that parses cleanly, in the words of the specification: it has
exactly three tab-separated fields and each field is convertible by the
`float` conversion `pf`. -/
def wellFormedLine {ε α : Type} (pf : PyStr → Except ε α) (line : PyStr) : Prop :=
  ∃ a b c, pySplit '\x09' line = [a, b, c] ∧
    (pf a).isOk ∧ (pf b).isOk ∧ (pf c).isOk

/-- A concrete stand-in for Python `float` used to evaluate the development
on closed inputs: parses a nonempty all-digit fragment as a natural number
and fails (returning the offending fragment) otherwise. -/
def natPF (s : PyStr) : Except PyStr Nat :=
  if s ≠ [] ∧ s.all Char.isDigit then
    Except.ok (s.foldl (fun n c => n * 10 + (c.toNat - 48)) 0)
  else
    Except.error s

/-- A concrete stand-in for the `ValueError` raised by tuple unpacking,
recording the offending field count as a string. -/
def unpackMsg (n : Nat) : PyStr := Nat.toDigits 10 n

end TwoSpiral

namespace SpiralModel

/-- The activation classes the notebook mentions (`torch.nn.ReLU` is passed
for the hidden layers; the output activation is `None`). -/
inductive TorchActivation where
  | relu
deriving DecidableEq

/-- The keyword configuration passed to `pytorch_wrapper.modules.MLP` in
`Model.__init__`. -/
structure MLPConfig where
  input_size : Nat
  num_hidden_layers : Nat
  hidden_layer_size : Nat
  hidden_activation : TorchActivation
  hidden_dp : ℚ
  hidden_layer_post_activation_bn : Bool
  output_size : Nat
  output_activation : Option TorchActivation
deriving DecidableEq

/-- The exact configuration built in `Model.__init__`: an MLP with input
size 2, three hidden layers of size 128 with ReLU and batch normalization,
no dropout, output size 1, and no output activation. -/
def Model.mlpConfig : MLPConfig :=
  { input_size := 2
  , num_hidden_layers := 3
  , hidden_layer_size := 128
  , hidden_activation := TorchActivation.relu
  , hidden_dp := 0
  , hidden_layer_post_activation_bn := true
  , output_size := 1
  , output_activation := none }

/-- Shape-level semantics of a call into the external
`pytorch_wrapper.modules.MLP` module.  The module's weights and arithmetic
are owned by the external library and are opaque here, abstracted as the
per-example function `net` (row of features to indexed output component);
what the configuration fixes is the shape: the module maps a batch of
feature rows to one row of `cfg.output_size` components per input row. -/
def mlpApply (cfg : MLPConfig) (net : List ℚ → Nat → ℚ)
    (x : List (List ℚ)) : List (List ℚ) :=
  x.map (fun row => (List.range cfg.output_size).map (net row))

/-- `torch.squeeze` on a 2-D tensor whose trailing dimension is 1: it
removes that dimension, turning the batch of singleton rows into a batch of
scalars; on any other trailing dimension the squeeze of the last axis does
not apply (embedded as `none`). -/
def squeezeCols (t : List (List ℚ)) : Option (List ℚ) :=
  if t.all (fun row => row.length = 1) then some t.flatten else none

/-- `Model.forward`: `self.mlp(x).squeeze()` — apply the configured MLP to
the batch and squeeze the resulting `[n, 1]` tensor into `n` scalars. -/
def Model.forward (net : List ℚ → Nat → ℚ) (x : List (List ℚ)) :
    Option (List ℚ) :=
  squeezeCols (mlpApply Model.mlpConfig net x)

end SpiralModel

namespace Evaluator

/-- `pytorch_wrapper.evaluators.GenericEvaluatorResults` as constructed by
`ManhattanDistanceEvaluator.calculate`: a score together with the label,
format string and optimisation direction. -/
structure GenericEvaluatorResults where
  score : ℚ
  label : String
  score_format : String
  is_max_better : Bool
deriving DecidableEq

/-- The state of a `ManhattanDistanceEvaluator`: the two configuration keys
set in `__init__` and the accumulated output and target lists. -/
structure ManhattanDistanceEvaluator where
  model_output_key : Option String
  batch_target_key : String
  outputs : List ℚ
  targets : List ℚ
deriving DecidableEq

/-- `ManhattanDistanceEvaluator.reset`: `self._outputs = []` and
`self._targets = []`, leaving the configuration keys untouched. -/
def ManhattanDistanceEvaluator.reset (ev : ManhattanDistanceEvaluator) :
    ManhattanDistanceEvaluator :=
  { ev with outputs := [], targets := [] }

/-- `ManhattanDistanceEvaluator.__init__`: store the two keys, then call
`self.reset()`. -/
def ManhattanDistanceEvaluator.init (model_output_key : Option String)
    (batch_target_key : String) : ManhattanDistanceEvaluator :=
  ManhattanDistanceEvaluator.reset
    { model_output_key := model_output_key
    , batch_target_key := batch_target_key
    , outputs := []
    , targets := [] }

/-- The `output` argument of `step`: either a tensor (whose `tolist()` is a
list of scalars) or a dictionary of tensors, to be indexed by
`self._model_output_key` when that key is not `None`. -/
inductive ModelOutput where
  | tensor : List ℚ → ModelOutput
  | dict : List (String × List ℚ) → ModelOutput
deriving DecidableEq

/-- Python dictionary lookup `m[k]`, raising `KeyError` (embedded as
`none`) when the key is absent. -/
def lookupKey (k : String) : List (String × List ℚ) → Option (List ℚ)
  | [] => none
  | (k', v) :: rest => if k' = k then some v else lookupKey k rest

/-- `ManhattanDistanceEvaluator.step`: when `self._model_output_key` is not
`None`, replace `output` by `output[self._model_output_key]`; then extend
`self._outputs` with `output.tolist()` and `self._targets` with
`batch[self._batch_target_key].tolist()`.  Runtime failures — indexing a
tensor by a string, calling `tolist()` on a dictionary, or a missing
dictionary key — are embedded as `none`.  The `last_activation` argument of
the source is unused by its body and is omitted. -/
def ManhattanDistanceEvaluator.step (ev : ManhattanDistanceEvaluator)
    (output : ModelOutput) (batch : List (String × List ℚ)) :
    Option ManhattanDistanceEvaluator :=
  let outVals : Option (List ℚ) :=
    match ev.model_output_key, output with
    | none, ModelOutput.tensor v => some v
    | none, ModelOutput.dict _ => none
    | some k, ModelOutput.dict m => lookupKey k m
    | some _, ModelOutput.tensor _ => none
  match outVals, lookupKey ev.batch_target_key batch with
  | some ov, some tv =>
      some { ev with outputs := ev.outputs ++ ov, targets := ev.targets ++ tv }
  | _, _ => none

/-- Elementwise subtraction of two 1-D numpy arrays,
`np.array(a) - np.array(b)`: defined elementwise when the lengths agree,
by broadcasting when either operand has length 1, and a shape error
(embedded as `none`) otherwise. -/
def npSub1d (a b : List ℚ) : Option (List ℚ) :=
  if a.length = b.length then some (List.zipWith (fun x y => x - y) a b)
  else
    match a, b with
    | [x], bs => some (bs.map (fun y => x - y))
    | as_, [y] => some (as_.map (fun x => x - y))
    | _, _ => none

/-- `ManhattanDistanceEvaluator.calculate`:
`np.sum(np.abs(np.array(self._outputs) - np.array(self._targets)))`,
wrapped in a `GenericEvaluatorResults` with label `'manh-dist'`, format
`'%f'` and `is_max_better=False`.  (The local variable is named
`mean_distance` in the source but the reduction is a plain sum.) -/
def ManhattanDistanceEvaluator.calculate (ev : ManhattanDistanceEvaluator) :
    Option GenericEvaluatorResults :=
  (npSub1d ev.outputs ev.targets).map (fun diffs =>
    { score := (diffs.map (fun d => |d|)).sum
    , label := "manh-dist"
    , score_format := "%f"
    , is_max_better := false })

/-- Feed one batch of (output, target) pairs to `step`, presenting the
outputs the way the evaluator's configuration expects them (a bare tensor
when `model_output_key` is `None`, a dictionary entry under that key
otherwise) and the targets under the configured batch target key. -/
def ManhattanDistanceEvaluator.stepPairs (ev : ManhattanDistanceEvaluator)
    (pairs : List (ℚ × ℚ)) : Option ManhattanDistanceEvaluator :=
  let out : ModelOutput :=
    match ev.model_output_key with
    | none => ModelOutput.tensor (pairs.map Prod.fst)
    | some k => ModelOutput.dict [(k, pairs.map Prod.fst)]
  ev.step out [(ev.batch_target_key, pairs.map Prod.snd)]

/-- Feed a list of batches of (output, target) pairs to `step`, one call
per batch, in order. -/
def ManhattanDistanceEvaluator.runPairs :
    ManhattanDistanceEvaluator → List (List (ℚ × ℚ)) →
    Option ManhattanDistanceEvaluator
  | ev, [] => some ev
  | ev, b :: bs =>
    match ev.stepPairs b with
    | none => none
    | some ev2 => ManhattanDistanceEvaluator.runPairs ev2 bs

end Evaluator

instance {ε α : Type} [DecidableEq ε] [DecidableEq α] : DecidableEq (Except ε α) := fun x y =>
  match x, y with
  | Except.ok u, Except.ok v =>
    if h : u = v then isTrue (by rw [h]) else isFalse (by intro hc; cases hc; exact h rfl)
  | Except.ok _, Except.error _ => isFalse (by intro hc; cases hc)
  | Except.error _, Except.ok _ => isFalse (by intro hc; cases hc)
  | Except.error u, Except.error v =>
    if h : u = v then isTrue (by rw [h]) else isFalse (by intro hc; cases hc; exact h rfl)

namespace Evaluator

theorem lookupKey_single (k : String) (v : List ℚ) : lookupKey k [(k, v)] = some v := by
  simp [lookupKey]

theorem stepPairs_eq (ev : ManhattanDistanceEvaluator) (pairs : List (ℚ × ℚ)) :
    ev.stepPairs pairs =
      some { ev with outputs := ev.outputs ++ pairs.map Prod.fst
                   , targets := ev.targets ++ pairs.map Prod.snd } := by
  unfold ManhattanDistanceEvaluator.stepPairs ManhattanDistanceEvaluator.step
  cases h : ev.model_output_key <;> simp [h, lookupKey_single]

theorem runPairs_eq (bs : List (List (ℚ × ℚ))) (ev : ManhattanDistanceEvaluator) :
    ev.runPairs bs =
      some { ev with outputs := ev.outputs ++ bs.flatten.map Prod.fst
                   , targets := ev.targets ++ bs.flatten.map Prod.snd } := by
  induction bs generalizing ev with
  | nil => simp [ManhattanDistanceEvaluator.runPairs]
  | cons b rest ih =>
    rw [ManhattanDistanceEvaluator.runPairs, stepPairs_eq]
    simp [ih]

theorem zipWith_sub_on_maps (l : List (ℚ × ℚ)) :
    List.zipWith (fun x y => x - y) (l.map Prod.fst) (l.map Prod.snd) =
      l.map (fun p => p.1 - p.2) := by
  induction l with
  | nil => rfl
  | cons p rest ih => simp [ih]

theorem calculate_of_pairs (k : Option String) (tk : String) (l : List (ℚ × ℚ)) :
    ManhattanDistanceEvaluator.calculate ⟨k, tk, l.map Prod.fst, l.map Prod.snd⟩ =
      some { score := (l.map (fun p => |p.1 - p.2|)).sum
           , label := "manh-dist", score_format := "%f", is_max_better := false } := by
  unfold ManhattanDistanceEvaluator.calculate npSub1d
  simp [zipWith_sub_on_maps, Function.comp_def]

end Evaluator

namespace TwoSpiral

theorem except_isOk_ok {ε α : Type} (a : α) : (Except.ok a : Except ε α).isOk = true := rfl

theorem except_isOk_error {ε α : Type} (e : ε) :
    (Except.error e : Except ε α).isOk = false := rfl

theorem parseRecord_isOk_iff {ε α : Type} (pf : PyStr → Except ε α) (ue : Nat → ε)
    (line : PyStr) :
    (parseRecord pf ue line).isOk = true ↔ wellFormedLine pf line := by
  unfold parseRecord wellFormedLine
  rcases hs : pySplit '\x09' line with _ | ⟨a, _ | ⟨b, _ | ⟨c, _ | ⟨d, fs⟩⟩⟩⟩ <;>
    simp [except_isOk_ok, except_isOk_error]
  cases hpa : pf a <;> cases hpb : pf b <;> cases hpc : pf c <;>
    simp [except_isOk_ok, except_isOk_error, hpa, hpb, hpc]
  exact ⟨a, b, c, ⟨rfl, rfl, rfl⟩, by simp [hpa, except_isOk_ok],
    by simp [hpb, except_isOk_ok], by simp [hpc, except_isOk_ok]⟩

theorem buildRecords_isOk_iff {ε α : Type} (pf : PyStr → Except ε α) (ue : Nat → ε)
    (ls : List PyStr) :
    (buildRecords pf ue ls).isOk = true ↔
      ∀ line ∈ ls, (parseRecord pf ue line).isOk = true := by
  induction ls with
  | nil => simp [buildRecords, except_isOk_ok]
  | cons l rest ih =>
    simp only [buildRecords]
    cases hp : parseRecord pf ue l with
    | error e => simp [hp, except_isOk_error]
    | ok r =>
      obtain ⟨x, y, t⟩ := r
      cases hb : buildRecords pf ue rest with
      | error e =>
        rw [hb] at ih
        simp [hp, except_isOk_ok, except_isOk_error, List.forall_mem_cons, ← ih]
      | ok p =>
        obtain ⟨ps, ts⟩ := p
        rw [hb] at ih
        simp [hp, except_isOk_ok, List.forall_mem_cons, ← ih]

theorem buildRecords_error {ε α : Type} (pf : PyStr → Except ε α) (ue : Nat → ε)
    (ls : List PyStr) (e : ε) (h : buildRecords pf ue ls = Except.error e) :
    ∃ line ∈ ls, parseRecord pf ue line = Except.error e := by
  induction ls with
  | nil => simp [buildRecords] at h
  | cons l rest ih =>
    simp only [buildRecords] at h
    cases hp : parseRecord pf ue l with
    | error e' =>
      rw [hp] at h
      simp only [] at h
      cases h
      exact ⟨l, by simp, hp⟩
    | ok r =>
      obtain ⟨x, y, t⟩ := r
      rw [hp] at h
      cases hb : buildRecords pf ue rest with
      | error e' =>
        rw [hb] at h
        simp only [] at h
        cases h
        obtain ⟨line, hmem, hline⟩ := ih hb
        exact ⟨line, by simp [hmem], hline⟩
      | ok p =>
        obtain ⟨ps, ts⟩ := p
        rw [hb] at h
        simp at h

theorem buildRecords_get {ε α : Type} (pf : PyStr → Except ε α) (ue : Nat → ε)
    (ls : List PyStr) (ps : List (α × α)) (ts : List α)
    (h : buildRecords pf ue ls = Except.ok (ps, ts)) :
    ps.length = ls.length ∧ ts.length = ls.length ∧
    ∀ i, i < ls.length →
      ∃ x y t, parseRecord pf ue (ls.getD i []) = Except.ok (x, y, t) ∧
        ps[i]? = some (x, y) ∧ ts[i]? = some t := by
  induction ls generalizing ps ts with
  | nil =>
    simp only [buildRecords] at h
    cases h
    simp
  | cons l rest ih =>
    simp only [buildRecords] at h
    cases hp : parseRecord pf ue l with
    | error e =>
      rw [hp] at h
      simp at h
    | ok r =>
      obtain ⟨x, y, t⟩ := r
      rw [hp] at h
      cases hb : buildRecords pf ue rest with
      | error e =>
        rw [hb] at h
        simp at h
      | ok p =>
        obtain ⟨ps', ts'⟩ := p
        rw [hb] at h
        simp only [] at h
        cases h
        obtain ⟨hl1, hl2, hget⟩ := ih ps' ts' hb
        refine ⟨by simp [hl1], by simp [hl2], ?_⟩
        intro i hi
        cases i with
        | zero => exact ⟨x, y, t, by simp [hp], by simp, by simp⟩
        | succ j =>
          have hj : j < rest.length := by
            simp only [List.length_cons] at hi
            omega
          obtain ⟨x', y', t', h1, h2, h3⟩ := hget j hj
          exact ⟨x', y', t', by simpa using h1, by simpa using h2, by simpa using h3⟩

theorem init_ok_elim {ε α : Type} (pf : PyStr → Except ε α) (ue : Nat → ε)
    (text : PyStr) (d : TwoSpiralDataset α)
    (h : TwoSpiralDataset.init pf ue (Except.ok text) = Except.ok d) :
    buildRecords pf ue (parsedLines text) = Except.ok (d.pos, d.target) := by
  simp only [TwoSpiralDataset.init] at h
  cases hb : buildRecords pf ue (parsedLines text) with
  | error e => rw [hb] at h; simp at h
  | ok p =>
    obtain ⟨ps, ts⟩ := p
    rw [hb] at h
    simp only [] at h
    cases h
    rfl

theorem init_error_elim {ε α : Type} (pf : PyStr → Except ε α) (ue : Nat → ε)
    (text : PyStr) (e : ε)
    (h : TwoSpiralDataset.init pf ue (Except.ok text) = Except.error e) :
    buildRecords pf ue (parsedLines text) = Except.error e := by
  simp only [TwoSpiralDataset.init] at h
  cases hb : buildRecords pf ue (parsedLines text) with
  | error e' =>
    rw [hb] at h
    simp only [] at h
    cases h
    rfl
  | ok p =>
    obtain ⟨ps, ts⟩ := p
    rw [hb] at h
    simp at h

theorem init_isOk_eq {ε α : Type} (pf : PyStr → Except ε α) (ue : Nat → ε)
    (text : PyStr) :
    (TwoSpiralDataset.init pf ue (Except.ok text)).isOk =
      (buildRecords pf ue (parsedLines text)).isOk := by
  simp only [TwoSpiralDataset.init]
  cases hb : buildRecords pf ue (parsedLines text) with
  | error e => rfl
  | ok p => obtain ⟨ps, ts⟩ := p; rfl

theorem flatten_map_singleton {β γ : Type} (f : β → γ) (x : List β) :
    (x.map (fun a => [f a])).flatten = x.map f := by
  induction x <;> simp_all

end TwoSpiral

/-- Claim C1: for every sequence of recorded (output, target) pairs
accumulated via `ManhattanDistanceEvaluator.step`, in any batching, the
result of `ManhattanDistanceEvaluator.calculate` has score equal to the sum
over all pairs of the absolute difference of output and target — a sum of
absolute differences, not a mean — together with the fixed label, format
and direction. -/
theorem calculate_score_is_sum_of_abs_diffs (k : Option String) (tk : String)
    (batches : List (List (ℚ × ℚ))) :
    ((Evaluator.ManhattanDistanceEvaluator.init k tk).runPairs batches).bind
        Evaluator.ManhattanDistanceEvaluator.calculate =
      some { score := (batches.flatten.map (fun p => |p.1 - p.2|)).sum
           , label := "manh-dist", score_format := "%f", is_max_better := false } := by
  rw [Evaluator.runPairs_eq]
  simpa [Evaluator.ManhattanDistanceEvaluator.init, Evaluator.ManhattanDistanceEvaluator.reset]
    using Evaluator.calculate_of_pairs k tk batches.flatten

/-- Claim C8: the result of `ManhattanDistanceEvaluator.calculate` depends
only on the concatenation, in call order, of the (output, target) pairs fed
to `step`: two batchings with the same concatenation give the same
calculate result. -/
theorem calculate_depends_only_on_concatenation (k : Option String) (tk : String)
    (bs1 bs2 : List (List (ℚ × ℚ))) (h : bs1.flatten = bs2.flatten) :
    ((Evaluator.ManhattanDistanceEvaluator.init k tk).runPairs bs1).bind
        Evaluator.ManhattanDistanceEvaluator.calculate =
      ((Evaluator.ManhattanDistanceEvaluator.init k tk).runPairs bs2).bind
        Evaluator.ManhattanDistanceEvaluator.calculate := by
  rw [Evaluator.runPairs_eq, Evaluator.runPairs_eq, h]

/-- Witness for claim C8: splitting the pairs (3,1), (2,5) into one batch
or two batches yields the same calculate result. -/
theorem calculate_depends_only_on_concatenation_witness :
    ((Evaluator.ManhattanDistanceEvaluator.init none "target").runPairs
        [[((3 : ℚ), (1 : ℚ)), (2, 5)]]).bind
        Evaluator.ManhattanDistanceEvaluator.calculate =
      ((Evaluator.ManhattanDistanceEvaluator.init none "target").runPairs
        [[((3 : ℚ), (1 : ℚ))], [(2, 5)]]).bind
        Evaluator.ManhattanDistanceEvaluator.calculate :=
  calculate_depends_only_on_concatenation none "target"
    [[((3 : ℚ), (1 : ℚ)), (2, 5)]] [[((3 : ℚ), (1 : ℚ))], [(2, 5)]] rfl

/-- Claim C9: `ManhattanDistanceEvaluator.reset` empties the stored outputs
and targets, restores exactly the state produced by `__init__` with the
same configuration (whatever `step` calls preceded it), is idempotent, and
leaves the two configuration keys unchanged. -/
theorem reset_restores_fresh_state (ev : Evaluator.ManhattanDistanceEvaluator) :
    ev.reset.outputs = [] ∧ ev.reset.targets = [] ∧
    ev.reset = Evaluator.ManhattanDistanceEvaluator.init ev.model_output_key ev.batch_target_key ∧
    ev.reset.reset = ev.reset ∧
    ev.reset.model_output_key = ev.model_output_key ∧
    ev.reset.batch_target_key = ev.batch_target_key :=
  ⟨rfl, rfl, rfl, rfl, rfl, rfl⟩

/-- Claim C10: `calculate` on a freshly constructed or freshly reset
evaluator does not fail and returns score 0 with label 'manh-dist', format
'%f' and `is_max_better = False`; and every successful `calculate` result,
in any state, carries label 'manh-dist' and `is_max_better = False`. -/
theorem calculate_on_fresh_state (k : Option String) (tk : String)
    (ev0 : Evaluator.ManhattanDistanceEvaluator) (r : Evaluator.GenericEvaluatorResults)
    (h : ev0.calculate = some r) :
    (Evaluator.ManhattanDistanceEvaluator.init k tk).calculate =
      some { score := 0, label := "manh-dist", score_format := "%f", is_max_better := false } ∧
    ev0.reset.calculate =
      some { score := 0, label := "manh-dist", score_format := "%f", is_max_better := false } ∧
    r.label = "manh-dist" ∧ r.is_max_better = false := by
  refine ⟨rfl, rfl, ?_, ?_⟩ <;>
  · unfold Evaluator.ManhattanDistanceEvaluator.calculate at h
    rcases Option.map_eq_some'.mp h with ⟨diffs, _, hr⟩
    rw [← hr]

/-- Witness for claim C10: the fresh evaluator with default-style keys. -/
theorem calculate_on_fresh_state_witness :
    (Evaluator.ManhattanDistanceEvaluator.init none "target").calculate =
      some { score := 0, label := "manh-dist", score_format := "%f", is_max_better := false } ∧
    (Evaluator.ManhattanDistanceEvaluator.init none "target").reset.calculate =
      some { score := 0, label := "manh-dist", score_format := "%f", is_max_better := false } ∧
    ({ score := 0, label := "manh-dist", score_format := "%f", is_max_better := false } :
        Evaluator.GenericEvaluatorResults).label = "manh-dist" ∧
    ({ score := 0, label := "manh-dist", score_format := "%f", is_max_better := false } :
        Evaluator.GenericEvaluatorResults).is_max_better = false :=
  calculate_on_fresh_state none "target"
    (Evaluator.ManhattanDistanceEvaluator.init none "target")
    { score := 0, label := "manh-dist", score_format := "%f", is_max_better := false } rfl

/-- Counterexample for claim C2 as stated: the fetched text `"1\t2\t3"` is a
single line that parses cleanly into a triple, yet the constructor stores no
record at all, because `__init__` iterates over `text.split('\n')[1:-1]`,
which drops the first and the last newline-separated fragment. -/
theorem dataset_drops_first_and_last_line :
    TwoSpiral.TwoSpiralDataset.init TwoSpiral.natPF TwoSpiral.unpackMsg
        (Except.ok "1\t2\t3".toList) =
      Except.ok { pos := [], target := [] } ∧
    (pySplit '\x0a' "1\t2\t3".toList).length = 1 ∧
    TwoSpiral.wellFormedLine TwoSpiral.natPF "1\t2\t3".toList ∧
    ({ pos := [], target := [] } : TwoSpiral.TwoSpiralDataset Nat).len ≠
      (pySplit '\x0a' "1\t2\t3".toList).length :=
  ⟨rfl, rfl, ⟨"1".toList, "2".toList, "3".toList, rfl, rfl, rfl, rfl⟩, by decide⟩

/-- Claim C2 (amended): the constructor, given the fetched text, parses each
interior line — every newline-separated fragment except the first and the
last — into a triple, producing exactly one stored record per such line;
the dataset exposes index-based record access via `__getitem__` and a
length via `__len__` equal to the number of stored records. -/
theorem dataset_one_record_per_interior_line {ε α : Type} (pf : PyStr → Except ε α)
    (ue : Nat → ε) (text : PyStr) (d : TwoSpiral.TwoSpiralDataset α)
    (h : TwoSpiral.TwoSpiralDataset.init pf ue (Except.ok text) = Except.ok d) :
    d.len = (TwoSpiral.parsedLines text).length ∧
    d.pos.length = (TwoSpiral.parsedLines text).length ∧
    ∀ i, i < d.len → (d.getitem i).isSome = true := by
  have hb := TwoSpiral.init_ok_elim pf ue text d h
  obtain ⟨h1, h2, hget⟩ := TwoSpiral.buildRecords_get pf ue _ _ _ hb
  refine ⟨h2, h1, ?_⟩
  intro i hi
  obtain ⟨x, y, t, _, hp, ht⟩ := hget i (by
    simp only [TwoSpiral.TwoSpiralDataset.len] at hi
    omega)
  simp [TwoSpiral.TwoSpiralDataset.getitem, hp, ht]

/-- Witness for claim C2 (amended): a concrete three-line text with one
interior line, producing one record. -/
theorem dataset_one_record_per_interior_line_witness :
    (⟨[(1, 2)], [3]⟩ : TwoSpiral.TwoSpiralDataset Nat).len =
      (TwoSpiral.parsedLines "h\n1\t2\t3\n".toList).length ∧
    (⟨[(1, 2)], [3]⟩ : TwoSpiral.TwoSpiralDataset Nat).pos.length =
      (TwoSpiral.parsedLines "h\n1\t2\t3\n".toList).length ∧
    ∀ i, i < (⟨[(1, 2)], [3]⟩ : TwoSpiral.TwoSpiralDataset Nat).len →
      ((⟨[(1, 2)], [3]⟩ : TwoSpiral.TwoSpiralDataset Nat).getitem i).isSome = true :=
  dataset_one_record_per_interior_line TwoSpiral.natPF TwoSpiral.unpackMsg
    "h\n1\t2\t3\n".toList ⟨[(1, 2)], [3]⟩ rfl

/-- Claim C3: during construction a network fetch failure propagates as the
underlying exception unchanged; the constructor succeeds exactly when every
parsed line has three tab-separated fields each convertible by the float
conversion; and when it fails on a fetched text, the error is exactly the
exception raised by parsing some line — unpacking `ValueError` or float
conversion error — unchanged, with no recovery, retry, or reporting. -/
theorem init_failure_exactly_on_malformed_lines {ε α : Type}
    (pf : PyStr → Except ε α) (ue : Nat → ε) (e : ε) (text : PyStr) :
    TwoSpiral.TwoSpiralDataset.init pf ue (Except.error e) =
      (Except.error e : Except ε (TwoSpiral.TwoSpiralDataset α)) ∧
    ((TwoSpiral.TwoSpiralDataset.init pf ue (Except.ok text)).isOk = true ↔
      ∀ line ∈ TwoSpiral.parsedLines text, TwoSpiral.wellFormedLine pf line) ∧
    (∀ e', TwoSpiral.TwoSpiralDataset.init pf ue (Except.ok text) = Except.error e' →
      ∃ line ∈ TwoSpiral.parsedLines text,
        TwoSpiral.parseRecord pf ue line = Except.error e') := by
  refine ⟨rfl, ?_, ?_⟩
  · rw [TwoSpiral.init_isOk_eq, TwoSpiral.buildRecords_isOk_iff]
    exact forall_congr' fun line =>
      imp_congr_right fun _ => TwoSpiral.parseRecord_isOk_iff pf ue line
  · intro e' h
    exact TwoSpiral.buildRecords_error pf ue _ e' (TwoSpiral.init_error_elim pf ue text e' h)

/-- Witness for claim C3: a failed fetch propagates its error, and on the
text `"h\n1\t2\tz\n"` the constructor fails with exactly the conversion
error of the malformed interior line. -/
theorem init_failure_exactly_on_malformed_lines_witness :
    TwoSpiral.TwoSpiralDataset.init TwoSpiral.natPF TwoSpiral.unpackMsg
        (Except.error "boom".toList) =
      (Except.error "boom".toList : Except PyStr (TwoSpiral.TwoSpiralDataset Nat)) ∧
    ∃ line ∈ TwoSpiral.parsedLines "h\n1\t2\tz\n".toList,
      TwoSpiral.parseRecord TwoSpiral.natPF TwoSpiral.unpackMsg line =
        Except.error "z".toList :=
  ⟨(init_failure_exactly_on_malformed_lines TwoSpiral.natPF TwoSpiral.unpackMsg
      "boom".toList "h\n1\t2\tz\n".toList).1,
   (init_failure_exactly_on_malformed_lines TwoSpiral.natPF TwoSpiral.unpackMsg
      "boom".toList "h\n1\t2\tz\n".toList).2.2 "z".toList rfl⟩

/-- Claim C4: after construction the `pos` and `target` arrays have the same
length, `__len__` returns that common length, and every in-range
`__getitem__` returns exactly one coordinate pair paired with exactly one
label.  (All embedded operations are pure, so no operation mutates `pos` or
`target` after construction.) -/
theorem dataset_parallel_arrays {ε α : Type} (pf : PyStr → Except ε α)
    (ue : Nat → ε) (text : PyStr) (d : TwoSpiral.TwoSpiralDataset α)
    (h : TwoSpiral.TwoSpiralDataset.init pf ue (Except.ok text) = Except.ok d) :
    d.pos.length = d.target.length ∧
    d.len = d.target.length ∧
    ∀ i, i < d.len → ∃ p t,
      d.getitem i = some [("input", TwoSpiral.ItemValue.coords p),
                          ("target", TwoSpiral.ItemValue.label t)] := by
  have hb := TwoSpiral.init_ok_elim pf ue text d h
  obtain ⟨h1, h2, hget⟩ := TwoSpiral.buildRecords_get pf ue _ _ _ hb
  refine ⟨h1.trans h2.symm, rfl, ?_⟩
  intro i hi
  obtain ⟨x, y, t, _, hp, ht⟩ := hget i (by
    simp only [TwoSpiral.TwoSpiralDataset.len] at hi
    omega)
  exact ⟨(x, y), t, by simp [TwoSpiral.TwoSpiralDataset.getitem, hp, ht]⟩

/-- Witness for claim C4: the dataset built from a concrete one-record
text. -/
theorem dataset_parallel_arrays_witness :
    (⟨[(7, 8)], [9]⟩ : TwoSpiral.TwoSpiralDataset Nat).pos.length =
      (⟨[(7, 8)], [9]⟩ : TwoSpiral.TwoSpiralDataset Nat).target.length ∧
    (⟨[(7, 8)], [9]⟩ : TwoSpiral.TwoSpiralDataset Nat).len =
      (⟨[(7, 8)], [9]⟩ : TwoSpiral.TwoSpiralDataset Nat).target.length ∧
    ∀ i, i < (⟨[(7, 8)], [9]⟩ : TwoSpiral.TwoSpiralDataset Nat).len → ∃ p t,
      (⟨[(7, 8)], [9]⟩ : TwoSpiral.TwoSpiralDataset Nat).getitem i =
        some [("input", TwoSpiral.ItemValue.coords p),
              ("target", TwoSpiral.ItemValue.label t)] :=
  dataset_parallel_arrays TwoSpiral.natPF TwoSpiral.unpackMsg
    "h\n7\t8\t9\n".toList ⟨[(7, 8)], [9]⟩ rfl

/-- Claim C5: records are held in insertion order from the source file: for
every valid index `i`, `__getitem__(i)` returns exactly the coordinate pair
and label parsed from the i-th parsed line of the fetched text. -/
theorem getitem_matches_parsed_line {ε α : Type} (pf : PyStr → Except ε α)
    (ue : Nat → ε) (text : PyStr) (d : TwoSpiral.TwoSpiralDataset α)
    (h : TwoSpiral.TwoSpiralDataset.init pf ue (Except.ok text) = Except.ok d)
    (i : Nat) (hi : i < d.len) :
    ∃ x y t,
      TwoSpiral.parseRecord pf ue ((TwoSpiral.parsedLines text).getD i []) =
        Except.ok (x, y, t) ∧
      d.getitem i = some [("input", TwoSpiral.ItemValue.coords (x, y)),
                          ("target", TwoSpiral.ItemValue.label t)] := by
  have hb := TwoSpiral.init_ok_elim pf ue text d h
  obtain ⟨h1, h2, hget⟩ := TwoSpiral.buildRecords_get pf ue _ _ _ hb
  obtain ⟨x, y, t, hrec, hp, ht⟩ := hget i (by
    simp only [TwoSpiral.TwoSpiralDataset.len] at hi
    omega)
  exact ⟨x, y, t, hrec, by simp [TwoSpiral.TwoSpiralDataset.getitem, hp, ht]⟩

/-- Witness for claim C5: the second record of a concrete two-record text
comes from its second interior line. -/
theorem getitem_matches_parsed_line_witness :
    ∃ x y t,
      TwoSpiral.parseRecord TwoSpiral.natPF TwoSpiral.unpackMsg
          ((TwoSpiral.parsedLines "h\n1\t2\t3\n4\t5\t6\n".toList).getD 1 []) =
        Except.ok (x, y, t) ∧
      (⟨[(1, 2), (4, 5)], [3, 6]⟩ : TwoSpiral.TwoSpiralDataset Nat).getitem 1 =
        some [("input", TwoSpiral.ItemValue.coords (x, y)),
              ("target", TwoSpiral.ItemValue.label t)] :=
  getitem_matches_parsed_line TwoSpiral.natPF TwoSpiral.unpackMsg
    "h\n1\t2\t3\n4\t5\t6\n".toList ⟨[(1, 2), (4, 5)], [3, 6]⟩ rfl 1 (by decide)

/-- Claim C6: every successful `__getitem__` returns a mapping whose key
set is exactly the fixed pair of string keys "input" and "target", with the
stored coordinate pair at "input" and the stored label at "target". -/
theorem getitem_fixed_keys {α : Type} (d : TwoSpiral.TwoSpiralDataset α)
    (i : Nat) (item : List (String × TwoSpiral.ItemValue α))
    (h : d.getitem i = some item) :
    item.map Prod.fst = ["input", "target"] ∧
    ∃ p t, d.pos[i]? = some p ∧ d.target[i]? = some t ∧
      item = [("input", TwoSpiral.ItemValue.coords p),
              ("target", TwoSpiral.ItemValue.label t)] := by
  unfold TwoSpiral.TwoSpiralDataset.getitem at h
  cases hp : d.pos[i]? with
  | none => rw [hp] at h; simp at h
  | some p =>
    cases ht : d.target[i]? with
    | none => rw [hp, ht] at h; simp at h
    | some t =>
      rw [hp, ht] at h
      simp only [] at h
      cases h
      exact ⟨rfl, p, t, rfl, rfl, rfl⟩

/-- Witness for claim C6: a concrete one-record dataset at index 0. -/
theorem getitem_fixed_keys_witness :
    ([("input", TwoSpiral.ItemValue.coords ((10 : Nat), (20 : Nat))),
      ("target", TwoSpiral.ItemValue.label (30 : Nat))].map Prod.fst =
        ["input", "target"]) ∧
    ∃ p t, (⟨[(10, 20)], [30]⟩ : TwoSpiral.TwoSpiralDataset Nat).pos[0]? = some p ∧
      (⟨[(10, 20)], [30]⟩ : TwoSpiral.TwoSpiralDataset Nat).target[0]? = some t ∧
      [("input", TwoSpiral.ItemValue.coords ((10 : Nat), (20 : Nat))),
       ("target", TwoSpiral.ItemValue.label (30 : Nat))] =
        [("input", TwoSpiral.ItemValue.coords p),
         ("target", TwoSpiral.ItemValue.label t)] :=
  getitem_fixed_keys (⟨[(10, 20)], [30]⟩ : TwoSpiral.TwoSpiralDataset Nat) 0
    [("input", TwoSpiral.ItemValue.coords (10, 20)),
     ("target", TwoSpiral.ItemValue.label 30)] rfl

/-- Claim C7: the model is configured as an MLP with input size 2 and output
size 1, and `Model.forward` applies the MLP and squeezes the result, so a
batch of 2-D inputs yields exactly one scalar value per input example. -/
theorem forward_one_scalar_per_example (net : List ℚ → Nat → ℚ)
    (x : List (List ℚ)) :
    SpiralModel.Model.mlpConfig.input_size = 2 ∧
    SpiralModel.Model.mlpConfig.output_size = 1 ∧
    SpiralModel.Model.forward net x = some (x.map (fun row => net row 0)) ∧
    ∃ ys, SpiralModel.Model.forward net x = some ys ∧ ys.length = x.length := by
  have hfwd : SpiralModel.Model.forward net x = some (x.map (fun row => net row 0)) := by
    unfold SpiralModel.Model.forward SpiralModel.mlpApply SpiralModel.squeezeCols
    rw [show List.range SpiralModel.Model.mlpConfig.output_size = [0] from rfl]
    rw [if_pos (by simp)]
    simp [TwoSpiral.flatten_map_singleton]
  exact ⟨rfl, rfl, hfwd, x.map (fun row => net row 0), hfwd, by simp⟩
